import Mathlib

set_option linter.unusedVariables false

/-!
Verification of the video-platform backend against its specification.

Shallow embedding of:
  * `src/backend/src/services/sensitivityAnalyzer.js` — three drifting copies
    of the mock classifier (`mockAIAnalysis`, `analyzeFrame`); copies are
    suffixed `A` (lines 92–149), `B` (lines 217–287), `C` (lines 352–404).
  * `src/backend/checkVideos.js` — two drifting copies of the orchestrator
    `processVideo` (lines 123–223 and 260–364), suffixed `1` and `2`.
  * `src/backend/src/routes/videos.js` — the upload, list, get-by-id and
    stream endpoints.

Numbers the JavaScript handles as IEEE doubles (durations, confidences,
random draws, ratio thresholds) are embedded as rationals `ℚ`; every
comparison the claims exercise is exact at the inputs involved, so the
rational semantics agrees with the float semantics there.  `Math.random()`
draws are passed in as explicit arguments.  External effects (ffmpeg,
ffprobe, file system, network, the socket channel, MongoDB) are modelled as
explicit stage outcomes, a persisted-state trace, and an emitted-event
trace.
-/

/-- The persisted MediaItem / `Video` record (mongoose document fields the
claims touch).  Duration is a rational (ffprobe returns float seconds). -/
structure Video where
  _id : String
  title : String
  description : String
  path : String
  duration : ℚ
  status : String
  processingProgress : Nat
  sensitivityStatus : String
  flagReason : String
  userId : String
  tenantId : String
deriving Repr, DecidableEq

/-- A per-frame verdict: the record returned by `analyzeFrame`.
The unflagged branch of the source omits `reason`; it is embedded as `""`
(the aggregation only ever reads `reason` of flagged verdicts). -/
structure FrameVerdict where
  flagged : Bool
  reason : String
  confidence : ℚ
  frameIndex : Nat
deriving Repr, DecidableEq

/-- The record returned by `mockAIAnalysis`: status, reason, confidence and
the `details` frame counts.  (Copy B additionally stringifies a percentage
into `details`; no claim touches it and it is omitted.) -/
structure SensitivityResult where
  status : String
  reason : String
  confidence : ℚ
  flaggedFrames : Nat
  totalFrames : Nat
deriving Repr, DecidableEq

/-- JavaScript `a || b` on strings: falls back when `a` is the empty string
(the only falsy string). -/
def jsOrStr (a b : String) : String := if a = "" then b else a

/-- Character-list prefix test (helper for `jsStartsWith`). -/
def charsStartWith : List Char → List Char → Bool
  | _, [] => true
  | [], _ :: _ => false
  | c :: s, d :: p => c = d && charsStartWith s p

/-- JavaScript `s.startsWith(pat)`, written structurally over the character
lists so that it evaluates by kernel reduction (the core library's
`String.startsWith` is the same prefix test but is opaque to the kernel). -/
def jsStartsWith (s pat : String) : Bool := charsStartWith s.data pat.data

/-- `Math.max(...xs)` over a list that the caller knows is nonempty
(on `[]` JavaScript would give `-Infinity`; every use below is guarded by
the flagged branch, where the list is nonempty). -/
def jsMaxList : List ℚ → ℚ
  | [] => 0
  | x :: xs => xs.foldl max x

/-- `reasons[Math.floor(draw * reasons.length)]` — fixed-list lookup by a
uniform draw, as in the flagged branch of every `analyzeFrame` copy. -/
def pickReason (reasons : List String) (draw : ℚ) : String :=
  reasons.getD (Int.toNat ⌊draw * reasons.length⌋) ""

/-- The fixed reason list of copies A and C of `analyzeFrame`. -/
def reasonsAC : List String :=
  ["Violence detected", "Adult content", "Disturbing imagery", "Hate symbols"]

/-- The fixed reason list of copy B of `analyzeFrame`. -/
def reasonsB : List String :=
  ["Violence detected", "Inappropriate gesture", "Adult content",
   "Hate symbol", "Explicit language", "Disturbing imagery"]

/-- `analyzeFrame` copy A (sensitivityAnalyzer.js lines 127–149).
`draw` is the `Math.random()` deciding the flag (`random < 0.1`),
`reasonDraw` the draw selecting the reason, `confDraw` the draw feeding the
confidence.  The flip threshold is the constant `0.1`. -/
def analyzeFrameA (framePath : String) (index : Nat)
    (draw reasonDraw confDraw : ℚ) : FrameVerdict :=
  if draw < 1/10 then
    { flagged := true
      reason := pickReason reasonsAC reasonDraw
      confidence := 8/10 + confDraw * (1/10)
      frameIndex := index }
  else
    { flagged := false
      reason := ""
      confidence := 85/100 + confDraw * (1/10)
      frameIndex := index }

/-- `analyzeFrame` copy B (sensitivityAnalyzer.js lines 261–287).
Here `timeBias = index / 10` and the flip condition is
`rnd < 0.1 + timeBias * 0.1`, i.e. the threshold grows with the frame
index. -/
def analyzeFrameB (framePath : String) (index : Nat)
    (draw reasonDraw confDraw : ℚ) : FrameVerdict :=
  if draw < 1/10 + ((index : ℚ) / 10) * (1/10) then
    { flagged := true
      reason := pickReason reasonsB reasonDraw
      confidence := 75/100 + confDraw * (2/10)
      frameIndex := index }
  else
    { flagged := false
      reason := ""
      confidence := 85/100 + confDraw * (1/10)
      frameIndex := index }

/-- `analyzeFrame` copy C (sensitivityAnalyzer.js lines 386–404).
Flip threshold is the constant `0.08`. -/
def analyzeFrameC (framePath : String) (index : Nat)
    (draw reasonDraw confDraw : ℚ) : FrameVerdict :=
  if draw < 8/100 then
    { flagged := true
      reason := pickReason reasonsAC reasonDraw
      confidence := 8/10 + confDraw * (15/100)
      frameIndex := index }
  else
    { flagged := false
      reason := ""
      confidence := 85/100 + confDraw * (1/10)
      frameIndex := index }

/-- `mockAIAnalysis` copy A (sensitivityAnalyzer.js lines 92–122), with the
per-frame loop factored out: `frames` is the list of `analyzeFrame`
verdicts the loop produced.  `flagged` collects flagged verdicts,
`safeScore` sums unflagged confidences, both divisions guard the
denominator with `Math.max(·, 1)`, and the video is flagged when
`flagRatio > 0.15`. -/
def mockAIAnalysisA (frames : List FrameVerdict) : SensitivityResult :=
  let flagged := frames.filter (·.flagged)
  let safeScore := ((frames.filter (fun a => !a.flagged)).map (·.confidence)).sum
  let avgSafe := safeScore / (max (frames.length - flagged.length) 1 : ℚ)
  let flagRatio := (flagged.length : ℚ) / (max frames.length 1 : ℚ)
  if flagRatio > 15/100 then
    { status := "flagged"
      reason := jsOrStr ((flagged.head?.map (·.reason)).getD "") "Sensitive content detected"
      confidence := jsMaxList (flagged.map (·.confidence))
      flaggedFrames := flagged.length
      totalFrames := frames.length }
  else
    { status := "safe"
      reason := ""
      confidence := avgSafe
      flaggedFrames := flagged.length
      totalFrames := frames.length }

/-- `mockAIAnalysis` copy B (sensitivityAnalyzer.js lines 217–256).  Unlike
copies A and C the flag-ratio denominator is the raw `frames.length`
(in JavaScript `0/0` is `NaN` and `NaN > 0.15` is false, so the empty case
still takes the safe branch; the rational embedding's `0/0 = 0` takes the
same branch).  `avgSafe` keeps the `Math.max(·,1)` guard. -/
def mockAIAnalysisB (frames : List FrameVerdict) : SensitivityResult :=
  let flagged := frames.filter (·.flagged)
  let safeScore := ((frames.filter (fun a => !a.flagged)).map (·.confidence)).sum
  let avgSafe := safeScore / (max (frames.length - flagged.length) 1 : ℚ)
  if (flagged.length : ℚ) / (frames.length : ℚ) > 15/100 then
    { status := "flagged"
      reason := jsOrStr ((flagged.head?.map (·.reason)).getD "") "Sensitive content detected"
      confidence := jsMaxList (flagged.map (·.confidence))
      flaggedFrames := flagged.length
      totalFrames := frames.length }
  else
    { status := "safe"
      reason := ""
      confidence := avgSafe
      flaggedFrames := flagged.length
      totalFrames := frames.length }

/-- `mockAIAnalysis` copy C (sensitivityAnalyzer.js lines 352–383): the
aggregation is textually identical to copy A (threshold `0.15`, both
denominators guarded by `Math.max(·,1)`). -/
def mockAIAnalysisC (frames : List FrameVerdict) : SensitivityResult :=
  mockAIAnalysisA frames

/-! ## The orchestrator `processVideo` (checkVideos.js, two copies) -/

/-- ffprobe metadata as resolved by `getVideoInfo`. -/
structure VideoInfo where
  duration : ℚ
  width : Nat
  height : Nat
  codec : String
deriving Repr, DecidableEq

/-- Events emitted on the per-user socket channel:
`video-progress-<userId>`, `video-complete-<userId>`, `video-failed-<userId>`.
The channel is keyed by the `userId` argument of `processVideo`; the payload
fields are those of the `io.emit` calls. -/
inductive Event where
  | progress (videoId : String) (progressVal : Nat) (status : Option String)
  | complete (videoId : String) (status sensitivityStatus flagReason : String)
      (duration : ℚ)
  | failed (videoId : String) (message : String)
deriving Repr, DecidableEq

/-- Is the event a `video-failed` event? -/
def Event.isFailed : Event → Bool
  | .failed _ _ => true
  | _ => false

/-- The progress value of a `video-progress` event, if it is one. -/
def Event.progressValue? : Event → Option Nat
  | .progress _ p _ => some p
  | _ => none

/-- Outcomes of the external effects one run of `processVideo` awaits, as
data: whether the local file exists (`fs.existsSync`), the download of a
remote source (`downloadVideo`), the ffprobe stage (`getVideoInfo`, error
case carrying the message of the rejection it produces), the thumbnail
stage (`extractThumbnail`), and the classifier stage (`analyzeSensitivity`:
frame extraction plus per-frame verdicts; the ok case carries the verdict
list handed to `mockAIAnalysis`). -/
structure StageEnv where
  fileExists : Bool
  download : Except String Unit
  videoInfo : Except String VideoInfo
  thumbnail : Except String Unit
  frames : Except String (List FrameVerdict)
deriving Repr

/-- Does an `Except` carry an error? -/
def isErr {α : Type} : Except String α → Bool
  | .error _ => true
  | .ok _ => false

/-- The result of one run: the final persisted record, the trace of record
states written by `video.save()` / `Video.findByIdAndUpdate` in order, and
the trace of emitted events in order. -/
structure RunResult where
  finalRecord : Video
  savedStates : List Video
  events : List Event
deriving Repr, DecidableEq

/-- Copy 1's pre-stage checks (checkVideos.js lines 131–146): for a local
path, `fs.existsSync` failure throws `Video file not found at <path>`;
for a remote path the download may reject.  Returns the thrown message. -/
def preflight1 (v0 : Video) (env : StageEnv) : Option String :=
  if jsStartsWith v0.path "http" then
    match env.download with
    | .error e => some e
    | .ok _ => none
  else if env.fileExists then none
  else some ("Video file not found at " ++ v0.path)

/-- Copy 1's catch block (checkVideos.js lines 208–222):
`Video.findByIdAndUpdate(videoId, { status: 'failed', processingProgress: 0 })`
applied to the current database record `db`, then one
`video-failed-<userId>` emit with `error.message || 'Processing failed'`. -/
def fail1 (videoId : String) (msg : String) (saved : List Video)
    (events : List Event) (db : Video) : RunResult :=
  let failedRec := { db with status := "failed", processingProgress := 0 }
  { finalRecord := failedRec
    savedStates := saved ++ [failedRec]
    events := events ++ [.failed videoId (jsOrStr msg "Processing failed")] }

/-- `processVideo` copy 1 (checkVideos.js lines 123–223).  `v0` is the
record `Video.findById` returns, `env` the outcomes of the awaited
effects, `classify` the imported `analyzeSensitivity` aggregation
(`mockAIAnalysis` applied to the extracted frames' verdicts). -/
def processVideo1 (videoId userId : String) (v0 : Video) (env : StageEnv)
    (classify : List FrameVerdict → SensitivityResult) : RunResult :=
  match preflight1 v0 env with
  | some msg => fail1 videoId msg [] [] v0
  | none =>
    let v1 : Video := { v0 with status := "processing", processingProgress := 0 }
    let s1 := [v1]
    let e1 := [Event.progress videoId 0 (some "processing")]
    match env.videoInfo with
    | .error msg => fail1 videoId msg s1 e1 v1
    | .ok info =>
      let v2 : Video := { v1 with duration := info.duration, processingProgress := 20 }
      let s2 := s1 ++ [v2]
      let e2 := e1 ++ [Event.progress videoId 20 none]
      let v3 : Video := { v2 with processingProgress := 40 }
      let s3 := s2 ++ [v3]
      let e3 := e2 ++ [Event.progress videoId 40 none]
      match env.thumbnail with
      | .error msg => fail1 videoId msg s3 e3 v3
      | .ok _ =>
        let v4 : Video := { v3 with processingProgress := 60 }
        let s4 := s3 ++ [v4]
        let e4 := e3 ++ [Event.progress videoId 60 none]
        match env.frames with
        | .error msg => fail1 videoId msg s4 e4 v4
        | .ok frames =>
          let result := classify frames
          let v5 : Video := { v4 with sensitivityStatus := result.status,
                                      flagReason := jsOrStr result.reason "",
                                      processingProgress := 80 }
          let s5 := s4 ++ [v5]
          let e5 := e4 ++ [Event.progress videoId 80 none]
          let v6 : Video := { v5 with status := "completed", processingProgress := 100 }
          { finalRecord := v6
            savedStates := s5 ++ [v6]
            events := e5 ++ [Event.complete videoId "completed"
              v6.sensitivityStatus v6.flagReason v6.duration] }

/-- Copy 2's pre-stage checks (checkVideos.js lines 268–287): same shape as
copy 1 but the missing-file message reads `... at path: <path>`. -/
def preflight2 (v0 : Video) (env : StageEnv) : Option String :=
  if jsStartsWith v0.path "http" then
    match env.download with
    | .error e => some e
    | .ok _ => none
  else if env.fileExists then none
  else some ("Video file not found at path: " ++ v0.path)

/-- Copy 2's catch block (checkVideos.js lines 351–363): same persisted
update as copy 1, but the `video-failed-<userId>` emit carries the fixed
string `'Video processing failed'` instead of the thrown error's message. -/
def fail2 (videoId : String) (msg : String) (saved : List Video)
    (events : List Event) (db : Video) : RunResult :=
  let failedRec := { db with status := "failed", processingProgress := 0 }
  { finalRecord := failedRec
    savedStates := saved ++ [failedRec]
    events := events ++ [.failed videoId "Video processing failed"] }

/-- `processVideo` copy 2 (checkVideos.js lines 260–364).  Differences from
copy 1: every progress emit carries `status: 'processing'`;
`sensitivityStatus` / `flagReason` are only written by the final
(step 5) save; the failure emit carries a fixed message. -/
def processVideo2 (videoId userId : String) (v0 : Video) (env : StageEnv)
    (classify : List FrameVerdict → SensitivityResult) : RunResult :=
  match preflight2 v0 env with
  | some msg => fail2 videoId msg [] [] v0
  | none =>
    let v1 : Video := { v0 with status := "processing", processingProgress := 0 }
    let s1 := [v1]
    let e1 := [Event.progress videoId 0 (some "processing")]
    match env.videoInfo with
    | .error msg => fail2 videoId msg s1 e1 v1
    | .ok info =>
      let v2 : Video := { v1 with duration := info.duration, processingProgress := 20 }
      let s2 := s1 ++ [v2]
      let e2 := e1 ++ [Event.progress videoId 20 (some "processing")]
      let v3 : Video := { v2 with processingProgress := 40 }
      let s3 := s2 ++ [v3]
      let e3 := e2 ++ [Event.progress videoId 40 (some "processing")]
      match env.thumbnail with
      | .error msg => fail2 videoId msg s3 e3 v3
      | .ok _ =>
        let v4 : Video := { v3 with processingProgress := 60 }
        let s4 := s3 ++ [v4]
        let e4 := e3 ++ [Event.progress videoId 60 (some "processing")]
        match env.frames with
        | .error msg => fail2 videoId msg s4 e4 v4
        | .ok frames =>
          let result := classify frames
          let v5 : Video := { v4 with processingProgress := 80 }
          let s5 := s4 ++ [v5]
          let e5 := e4 ++ [Event.progress videoId 80 (some "processing")]
          let v6 : Video := { v5 with status := "completed",
                                      sensitivityStatus := result.status,
                                      flagReason := jsOrStr result.reason "",
                                      processingProgress := 100 }
          { finalRecord := v6
            savedStates := s5 ++ [v6]
            events := e5 ++ [Event.complete videoId "completed"
              v6.sensitivityStatus v6.flagReason v6.duration] }

/-- A run of copy 1 hits its catch block: a pre-stage check or one of the
stages throws. -/
def stageThrows1 (v0 : Video) (env : StageEnv) : Prop :=
  (preflight1 v0 env).isSome ∨ isErr env.videoInfo = true ∨
    isErr env.thumbnail = true ∨ isErr env.frames = true

/-- A run of copy 2 hits its catch block. -/
def stageThrows2 (v0 : Video) (env : StageEnv) : Prop :=
  (preflight2 v0 env).isSome ∨ isErr env.videoInfo = true ∨
    isErr env.thumbnail = true ∨ isErr env.frames = true

/-- The message of the first throw a run of copy 1 encounters, when one
does (mirrors the sequential order of the source). -/
def thrownMessage1 (v0 : Video) (env : StageEnv) : Option String :=
  match preflight1 v0 env with
  | some msg => some msg
  | none =>
    match env.videoInfo with
    | .error msg => some msg
    | .ok _ =>
      match env.thumbnail with
      | .error msg => some msg
      | .ok _ =>
        match env.frames with
        | .error msg => some msg
        | .ok _ => none

/-- The message of the first throw a run of copy 2 encounters, when one
does. -/
def thrownMessage2 (v0 : Video) (env : StageEnv) : Option String :=
  match preflight2 v0 env with
  | some msg => some msg
  | none =>
    match env.videoInfo with
    | .error msg => some msg
    | .ok _ =>
      match env.thumbnail with
      | .error msg => some msg
      | .ok _ =>
        match env.frames with
        | .error msg => some msg
        | .ok _ => none

/-! ## Routes (src/backend/src/routes/videos.js) -/

/-- The multer/Cloudinary upload file object fields the upload route reads. -/
structure UploadedFile where
  path : String
  filename : String
  mimetype : String
  size : Nat
deriving Repr, DecidableEq

/-- The `default` of the mongoose `videoSchema`'s `status` field
(src/unnamed/part_002 lines 59–63: enum
`['uploading', 'processing', 'completed', 'failed']`,
`default: 'uploading'`). -/
def videoSchemaDefaultStatus : String := "uploading"

/-- A fresh `Video` document carrying the `videoSchema` defaults
(src/unnamed/part_002) for every field the caller does not supply:
`description ''`, `duration` 0, `status` `'uploading'`
(`videoSchemaDefaultStatus`), `sensitivityStatus 'pending'`,
`processingProgress` 0, `flagReason ''`.  The remaining fields have no
schema default (they are `required`); their `""` placeholders here are
always overridden by the route's values in `newUploadVideo`. -/
def videoSchemaDefaults (id : String) : Video :=
  { _id := id, title := "", description := "", path := "", duration := 0
    status := videoSchemaDefaultStatus, processingProgress := 0
    sensitivityStatus := "pending", flagReason := "", userId := ""
    tenantId := "" }

/-- The document `new Video({...})` builds in the active upload route
(videos.js lines 78–88): the route supplies `title`, `description || ''`,
the Cloudinary `path`, `userId`, `tenantId` and an explicit
`status: 'processing'`; every other field keeps its schema default. -/
def newUploadVideo (id title description path userIdStr tenantId : String) :
    Video :=
  { videoSchemaDefaults id with
    title := title
    description := jsOrStr description ""
    path := path
    userId := userIdStr
    tenantId := tenantId
    status := "processing" }

/-- What the upload route hands back: the HTTP status code, the `video`
document of the 201 body (none on an error response), and the arguments of
the fire-and-forget `processVideo(video._id, req.user._id.toString())`
call (none when no job is started). -/
structure UploadResponse where
  code : Nat
  videoBody : Option Video
  spawned : Option (String × String)
deriving Repr, DecidableEq

/-- The active upload route (videos.js lines 70–102): 400 when
`!req.file || !req.file.path`; otherwise create the document, save it,
start `processVideo` without awaiting it, and answer 201 with the created
document. -/
def uploadHandler (title : String) (description : Option String)
    (file : Option UploadedFile) (newId userIdStr tenantId : String) :
    UploadResponse :=
  match file with
  | none => { code := 400, videoBody := none, spawned := none }
  | some f =>
    if f.path = "" then { code := 400, videoBody := none, spawned := none }
    else
      let video := newUploadVideo newId title (description.getD "") f.path
        userIdStr tenantId
      { code := 201, videoBody := some video, spawned := some (newId, userIdStr) }

/-- The upload route followed by the background run of `processVideo`
copy 1 on the record it created.  The route does not await the run: its
response is the first component, computed before `env` — the outcomes of
the pipeline's effects — is ever consulted. -/
def uploadThenProcess1 (title : String) (description : Option String)
    (file : Option UploadedFile) (newId userIdStr tenantId : String)
    (env : StageEnv) (classify : List FrameVerdict → SensitivityResult) :
    UploadResponse × Option RunResult :=
  let resp := uploadHandler title description file newId userIdStr tenantId
  match resp.spawned, resp.videoBody with
  | some (vid, uid), some video =>
    (resp, some (processVideo1 vid uid video env classify))
  | _, _ => (resp, none)

/-- The mongoose filter of the list route (videos.js lines 110–116):
always `userId` and `tenantId`; `status` / `sensitivityStatus` only when
the query-string value is truthy (the empty string is falsy, hence "no
filter"). -/
def matchesListFilters (uid tid statusQ sensQ : String) (v : Video) : Bool :=
  v.userId = uid && v.tenantId = tid &&
  (statusQ = "" || v.status = statusQ) &&
  (sensQ = "" || v.sensitivityStatus = sensQ)

/-- The list route `GET /` (videos.js lines 106–127): `Video.find(query)`
over the store.  (The route additionally sorts by `createdAt` descending
and projects away `path`; neither reordering nor that projection touches
the fields the claims speak about, and they are not modelled.) -/
def listVideosHandler (db : List Video) (uid tid statusQ sensQ : String) :
    List Video :=
  db.filter (matchesListFilters uid tid statusQ sensQ)

/-- `Video.findOne({ _id, userId, tenantId })` — the lookup shared by the
get-by-id, stream and delete routes. -/
def findOneUserVideo (db : List Video) (id uid tid : String) : Option Video :=
  db.find? (fun v => v._id = id && v.userId = uid && v.tenantId = tid)

/-- The get-by-id route `GET /:id` (videos.js lines 130–147): 404 when the
scoped lookup finds nothing, else 200 with the document. -/
def getVideoHandler (db : List Video) (id uid tid : String) :
    Nat × Option Video :=
  match findOneUserVideo db id uid tid with
  | none => (404, none)
  | some v => (200, some v)

/-- A stream response: HTTP status code and whether media bytes were piped
to the client. -/
structure StreamResponse where
  code : Nat
  servedBytes : Bool
deriving Repr, DecidableEq

/-- The active stream route `GET /:id/stream` (videos.js lines 221–290):
404 when the scoped lookup finds nothing; 400 (`'Video is still
processing'`) when the record's status is not `completed`; for a remote
path, pipe the fetched body (404 if the fetch is not ok); for a local
path, 404 when the file is missing, else range-serve (206) or send whole
(200).  `remoteFetchOk` is `response.ok` of the Cloudinary fetch,
`localFileExists` is `fs.existsSync(video.path)`, `hasRange` whether the
request carries a Range header. -/
def streamHandler (db : List Video) (id uid tid : String)
    (remoteFetchOk localFileExists hasRange : Bool) : StreamResponse :=
  match findOneUserVideo db id uid tid with
  | none => { code := 404, servedBytes := false }
  | some video =>
    if video.status ≠ "completed" then
      { code := 400, servedBytes := false }
    else if jsStartsWith video.path "http" then
      if remoteFetchOk then { code := 200, servedBytes := true }
      else { code := 404, servedBytes := false }
    else if localFileExists = false then
      { code := 404, servedBytes := false }
    else if hasRange then { code := 206, servedBytes := true }
    else { code := 200, servedBytes := true }

/-! ## Helper lemmas -/

/-- Every copy of the aggregation answers either `safe` or `flagged`. -/
theorem mockAIAnalysisA_status (vs : List FrameVerdict) :
    (mockAIAnalysisA vs).status = "safe" ∨ (mockAIAnalysisA vs).status = "flagged" := by
  unfold mockAIAnalysisA
  dsimp only
  split
  · exact Or.inr rfl
  · exact Or.inl rfl

/-- Copy B of the aggregation answers either `safe` or `flagged`. -/
theorem mockAIAnalysisB_status (vs : List FrameVerdict) :
    (mockAIAnalysisB vs).status = "safe" ∨ (mockAIAnalysisB vs).status = "flagged" := by
  unfold mockAIAnalysisB
  dsimp only
  split
  · exact Or.inr rfl
  · exact Or.inl rfl

/-- Copy C of the aggregation answers either `safe` or `flagged`. -/
theorem mockAIAnalysisC_status (vs : List FrameVerdict) :
    (mockAIAnalysisC vs).status = "safe" ∨ (mockAIAnalysisC vs).status = "flagged" := by
  unfold mockAIAnalysisC
  exact mockAIAnalysisA_status vs

/-- `isErr e = false` exactly when `e` is an `ok`. -/
theorem isErr_eq_false_iff {α : Type} (e : Except String α) :
    isErr e = false ↔ ∃ a, e = .ok a := by
  cases e <;> simp [isErr]

/-- The two copies' pre-stage checks throw in the same situations (they
differ only in the wording of the missing-file message). -/
theorem preflight_isSome_iff (v0 : Video) (env : StageEnv) :
    (preflight1 v0 env).isSome ↔ (preflight2 v0 env).isSome := by
  unfold preflight1 preflight2
  split
  · rfl
  · split <;> simp

/-- Shape of a copy-1 run that hits the catch block: the run equals
`fail1` applied to the message of the first throw, some saved/event
prefixes with no failure event among them, and the database record `pre`
current at the failure; `pre` keeps every field of `v0` except `status`
and `processingProgress`, and `duration`, which carries the probed
duration exactly when the probe stage succeeded before the failure. -/
theorem processVideo1_throw (videoId userId : String) (v0 : Video)
    (env : StageEnv) (classify : List FrameVerdict → SensitivityResult)
    (h : stageThrows1 v0 env) :
    ∃ m saved events pre,
      thrownMessage1 v0 env = some m ∧
      processVideo1 videoId userId v0 env classify = fail1 videoId m saved events pre ∧
      events.all (fun e => !e.isFailed) = true ∧
      saved.all (fun w => w.status == "processing") = true ∧
      List.Chain' (fun a b => a.processingProgress ≤ b.processingProgress) saved ∧
      pre.title = v0.title ∧ pre.description = v0.description ∧
      pre.path = v0.path ∧ pre.sensitivityStatus = v0.sensitivityStatus ∧
      pre.flagReason = v0.flagReason ∧ pre.userId = v0.userId ∧
      pre.tenantId = v0.tenantId ∧
      (∀ info, preflight1 v0 env = none → env.videoInfo = Except.ok info →
        pre.duration = info.duration) ∧
      ((preflight1 v0 env).isSome = true ∨ isErr env.videoInfo = true →
        pre.duration = v0.duration) := by
  rcases hp : preflight1 v0 env with _ | m
  case some =>
    refine ⟨m, [], [], v0, ?_, ?_, rfl, rfl, ?_, rfl, rfl, rfl, rfl, rfl, rfl, rfl, ?_, ?_⟩
    · simp [thrownMessage1, hp]
    · unfold processVideo1; rw [hp]
    · exact List.chain'_nil
    · intro info hpre _; simp at hpre
    · intro _; rfl
  case none =>
    rcases hi : env.videoInfo with mi | info
    · -- probe throws
      refine ⟨mi, [{ v0 with status := "processing", processingProgress := 0 }], [Event.progress videoId 0 (some "processing")], { v0 with status := "processing", processingProgress := 0 }, ?_, ?_, ?_, ?_, ?_, rfl, rfl, rfl, rfl, rfl, rfl, rfl, ?_, ?_⟩
      · simp [thrownMessage1, hp, hi]
      · unfold processVideo1; rw [hp, hi]
      · simp [Event.isFailed]
      · simp
      · simp [List.chain'_cons]
      · intro info _ h'; simp at h'
      · intro _; rfl
    · rcases ht : env.thumbnail with mt | u
      · -- thumbnail throws
        refine ⟨mt, [{ v0 with status := "processing", processingProgress := 0 }, { v0 with status := "processing", duration := info.duration, processingProgress := 20 }, { v0 with status := "processing", duration := info.duration, processingProgress := 40 }], [Event.progress videoId 0 (some "processing"), Event.progress videoId 20 none, Event.progress videoId 40 none], { v0 with status := "processing", duration := info.duration, processingProgress := 40 }, ?_, ?_, ?_, ?_, ?_, rfl, rfl, rfl, rfl, rfl, rfl, rfl, ?_, ?_⟩
        · simp [thrownMessage1, hp, hi, ht]
        · unfold processVideo1; rw [hp, hi, ht]; rfl
        · simp [Event.isFailed]
        · simp
        · simp [List.chain'_cons]
        · intro info' _ h'
          injection h' with h2
          subst h2
          rfl
        · intro hbad
          rcases hbad with hbad | hbad
          · simp at hbad
          · simp [isErr] at hbad
      · rcases hf : env.frames with mf | frames
        · -- classifier stage throws
          refine ⟨mf, [{ v0 with status := "processing", processingProgress := 0 }, { v0 with status := "processing", duration := info.duration, processingProgress := 20 }, { v0 with status := "processing", duration := info.duration, processingProgress := 40 }, { v0 with status := "processing", duration := info.duration, processingProgress := 60 }], [Event.progress videoId 0 (some "processing"), Event.progress videoId 20 none, Event.progress videoId 40 none, Event.progress videoId 60 none], { v0 with status := "processing", duration := info.duration, processingProgress := 60 }, ?_, ?_, ?_, ?_, ?_, rfl, rfl, rfl, rfl, rfl, rfl, rfl, ?_, ?_⟩
          · simp [thrownMessage1, hp, hi, ht, hf]
          · unfold processVideo1; rw [hp, hi, ht, hf]; rfl
          · simp [Event.isFailed]
          · simp
          · simp [List.chain'_cons]
          · intro info' _ h'
            injection h' with h2
            subst h2
            rfl
          · intro hbad
            rcases hbad with hbad | hbad
            · simp at hbad
            · simp [isErr] at hbad
        · -- all stages succeed: contradicts the hypothesis
          exfalso
          unfold stageThrows1 at h
          rcases h with h | h | h | h
          · rw [hp] at h; simp at h
          · rw [hi] at h; simp [isErr] at h
          · rw [ht] at h; simp [isErr] at h
          · rw [hf] at h; simp [isErr] at h

/-- Shape of a copy-2 run that hits the catch block (the copy-2 analogue
of `processVideo1_throw`). -/
theorem processVideo2_throw (videoId userId : String) (v0 : Video)
    (env : StageEnv) (classify : List FrameVerdict → SensitivityResult)
    (h : stageThrows2 v0 env) :
    ∃ m saved events pre,
      thrownMessage2 v0 env = some m ∧
      processVideo2 videoId userId v0 env classify = fail2 videoId m saved events pre ∧
      events.all (fun e => !e.isFailed) = true ∧
      saved.all (fun w => w.status == "processing") = true ∧
      List.Chain' (fun a b => a.processingProgress ≤ b.processingProgress) saved ∧
      pre.title = v0.title ∧ pre.description = v0.description ∧
      pre.path = v0.path ∧ pre.sensitivityStatus = v0.sensitivityStatus ∧
      pre.flagReason = v0.flagReason ∧ pre.userId = v0.userId ∧
      pre.tenantId = v0.tenantId ∧
      (∀ info, preflight2 v0 env = none → env.videoInfo = Except.ok info →
        pre.duration = info.duration) ∧
      ((preflight2 v0 env).isSome = true ∨ isErr env.videoInfo = true →
        pre.duration = v0.duration) := by
  rcases hp : preflight2 v0 env with _ | m
  case some =>
    refine ⟨m, [], [], v0, ?_, ?_, rfl, rfl, ?_, rfl, rfl, rfl, rfl, rfl, rfl, rfl, ?_, ?_⟩
    · simp [thrownMessage2, hp]
    · unfold processVideo2; rw [hp]
    · exact List.chain'_nil
    · intro info hpre _; simp at hpre
    · intro _; rfl
  case none =>
    rcases hi : env.videoInfo with mi | info
    · -- probe throws
      refine ⟨mi, [{ v0 with status := "processing", processingProgress := 0 }], [Event.progress videoId 0 (some "processing")], { v0 with status := "processing", processingProgress := 0 }, ?_, ?_, ?_, ?_, ?_, rfl, rfl, rfl, rfl, rfl, rfl, rfl, ?_, ?_⟩
      · simp [thrownMessage2, hp, hi]
      · unfold processVideo2; rw [hp, hi]
      · simp [Event.isFailed]
      · simp
      · simp [List.chain'_cons]
      · intro info _ h'; simp at h'
      · intro _; rfl
    · rcases ht : env.thumbnail with mt | u
      · -- thumbnail throws
        refine ⟨mt, [{ v0 with status := "processing", processingProgress := 0 }, { v0 with status := "processing", duration := info.duration, processingProgress := 20 }, { v0 with status := "processing", duration := info.duration, processingProgress := 40 }], [Event.progress videoId 0 (some "processing"), Event.progress videoId 20 (some "processing"), Event.progress videoId 40 (some "processing")], { v0 with status := "processing", duration := info.duration, processingProgress := 40 }, ?_, ?_, ?_, ?_, ?_, rfl, rfl, rfl, rfl, rfl, rfl, rfl, ?_, ?_⟩
        · simp [thrownMessage2, hp, hi, ht]
        · unfold processVideo2; rw [hp, hi, ht]; rfl
        · simp [Event.isFailed]
        · simp
        · simp [List.chain'_cons]
        · intro info' _ h'
          injection h' with h2
          subst h2
          rfl
        · intro hbad
          rcases hbad with hbad | hbad
          · simp at hbad
          · simp [isErr] at hbad
      · rcases hf : env.frames with mf | frames
        · -- classifier stage throws
          refine ⟨mf, [{ v0 with status := "processing", processingProgress := 0 }, { v0 with status := "processing", duration := info.duration, processingProgress := 20 }, { v0 with status := "processing", duration := info.duration, processingProgress := 40 }, { v0 with status := "processing", duration := info.duration, processingProgress := 60 }], [Event.progress videoId 0 (some "processing"), Event.progress videoId 20 (some "processing"), Event.progress videoId 40 (some "processing"), Event.progress videoId 60 (some "processing")], { v0 with status := "processing", duration := info.duration, processingProgress := 60 }, ?_, ?_, ?_, ?_, ?_, rfl, rfl, rfl, rfl, rfl, rfl, rfl, ?_, ?_⟩
          · simp [thrownMessage2, hp, hi, ht, hf]
          · unfold processVideo2; rw [hp, hi, ht, hf]; rfl
          · simp [Event.isFailed]
          · simp
          · simp [List.chain'_cons]
          · intro info' _ h'
            injection h' with h2
            subst h2
            rfl
          · intro hbad
            rcases hbad with hbad | hbad
            · simp at hbad
            · simp [isErr] at hbad
        · -- all stages succeed: contradicts the hypothesis
          exfalso
          unfold stageThrows2 at h
          rcases h with h | h | h | h
          · rw [hp] at h; simp at h
          · rw [hi] at h; simp [isErr] at h
          · rw [ht] at h; simp [isErr] at h
          · rw [hf] at h; simp [isErr] at h

/-- Explicit shape of a copy-1 run in which every stage succeeds. -/
theorem processVideo1_success (videoId userId : String) (v0 : Video)
    (env : StageEnv) (classify : List FrameVerdict → SensitivityResult)
    (info : VideoInfo) (frames : List FrameVerdict)
    (hp : preflight1 v0 env = none) (hi : env.videoInfo = Except.ok info)
    (ht : env.thumbnail = Except.ok ()) (hf : env.frames = Except.ok frames) :
    processVideo1 videoId userId v0 env classify =
      { finalRecord := { v0 with status := "completed", duration := info.duration, processingProgress := 100, sensitivityStatus := (classify frames).status, flagReason := jsOrStr (classify frames).reason "" }
        savedStates := [{ v0 with status := "processing", processingProgress := 0 }, { v0 with status := "processing", duration := info.duration, processingProgress := 20 }, { v0 with status := "processing", duration := info.duration, processingProgress := 40 }, { v0 with status := "processing", duration := info.duration, processingProgress := 60 }, { v0 with status := "processing", duration := info.duration, processingProgress := 80, sensitivityStatus := (classify frames).status, flagReason := jsOrStr (classify frames).reason "" }, { v0 with status := "completed", duration := info.duration, processingProgress := 100, sensitivityStatus := (classify frames).status, flagReason := jsOrStr (classify frames).reason "" }]
        events := [Event.progress videoId 0 (some "processing"), Event.progress videoId 20 none, Event.progress videoId 40 none, Event.progress videoId 60 none, Event.progress videoId 80 none, Event.complete videoId "completed" (classify frames).status (jsOrStr (classify frames).reason "") info.duration] } := by
  unfold processVideo1
  rw [hp, hi, ht, hf]
  rfl

/-- Explicit shape of a copy-2 run in which every stage succeeds. -/
theorem processVideo2_success (videoId userId : String) (v0 : Video)
    (env : StageEnv) (classify : List FrameVerdict → SensitivityResult)
    (info : VideoInfo) (frames : List FrameVerdict)
    (hp : preflight2 v0 env = none) (hi : env.videoInfo = Except.ok info)
    (ht : env.thumbnail = Except.ok ()) (hf : env.frames = Except.ok frames) :
    processVideo2 videoId userId v0 env classify =
      { finalRecord := { v0 with status := "completed", duration := info.duration, processingProgress := 100, sensitivityStatus := (classify frames).status, flagReason := jsOrStr (classify frames).reason "" }
        savedStates := [{ v0 with status := "processing", processingProgress := 0 }, { v0 with status := "processing", duration := info.duration, processingProgress := 20 }, { v0 with status := "processing", duration := info.duration, processingProgress := 40 }, { v0 with status := "processing", duration := info.duration, processingProgress := 60 }, { v0 with status := "processing", duration := info.duration, processingProgress := 80 }, { v0 with status := "completed", duration := info.duration, processingProgress := 100, sensitivityStatus := (classify frames).status, flagReason := jsOrStr (classify frames).reason "" }]
        events := [Event.progress videoId 0 (some "processing"), Event.progress videoId 20 (some "processing"), Event.progress videoId 40 (some "processing"), Event.progress videoId 60 (some "processing"), Event.progress videoId 80 (some "processing"), Event.complete videoId "completed" (classify frames).status (jsOrStr (classify frames).reason "") info.duration] } := by
  unfold processVideo2
  rw [hp, hi, ht, hf]
  rfl

/-- If copy 1's pre-stage checks pass, so do copy 2's. -/
theorem preflight2_none_of_preflight1 (v0 : Video) (env : StageEnv)
    (h : preflight1 v0 env = none) : preflight2 v0 env = none := by
  rcases hq : preflight2 v0 env with _ | m
  · rfl
  · exfalso
    have h2 := (preflight_isSome_iff v0 env).mpr (by simp [hq])
    simp [h] at h2

/-- A throw in copy 1 is a throw in copy 2 (same stage outcomes). -/
theorem stageThrows2_of_stageThrows1 (v0 : Video) (env : StageEnv)
    (h : stageThrows1 v0 env) : stageThrows2 v0 env := by
  unfold stageThrows1 at h
  unfold stageThrows2
  rcases h with h | h
  · exact Or.inl ((preflight_isSome_iff v0 env).mp h)
  · exact Or.inr h

/-- A run with no throw decomposes into four successful outcomes. -/
theorem not_stageThrows1_elim (v0 : Video) (env : StageEnv)
    (h : ¬ stageThrows1 v0 env) :
    preflight1 v0 env = none ∧ (∃ i, env.videoInfo = Except.ok i) ∧
      env.thumbnail = Except.ok () ∧ ∃ fs, env.frames = Except.ok fs := by
  unfold stageThrows1 at h
  push_neg at h
  obtain ⟨h1, h2, h3, h4⟩ := h
  refine ⟨Option.not_isSome_iff_eq_none.mp (by simp [h1]), ?_, ?_, ?_⟩
  · exact (isErr_eq_false_iff env.videoInfo).mp (by simp [h2])
  · obtain ⟨u, hu⟩ := (isErr_eq_false_iff env.thumbnail).mp (by simp [h3])
    exact hu
  · exact (isErr_eq_false_iff env.frames).mp (by simp [h4])

/-- Concrete fixtures used by the witnesses and counterexamples. -/
def demoVideo : Video :=
  { _id := "v1", title := "Demo", description := "d", path := "uploads/demo.mp4"
    duration := 0, status := "processing", processingProgress := 0
    sensitivityStatus := "pending", flagReason := "", userId := "u1"
    tenantId := "t1" }

/-- Stage outcomes in which the probe stage rejects. -/
def envProbeFails : StageEnv :=
  { fileExists := true, download := Except.ok ()
    videoInfo := Except.error "Failed to get video info: boom"
    thumbnail := Except.ok (), frames := Except.ok [] }

/-- Stage outcomes in which the probe succeeds (duration 7) and the
thumbnail stage rejects. -/
def envThumbFails : StageEnv :=
  { fileExists := true, download := Except.ok ()
    videoInfo := Except.ok { duration := 7, width := 640, height := 360, codec := "h264" }
    thumbnail := Except.error "ffmpeg exited with code 1", frames := Except.ok [] }

/-- Stage outcomes in which every stage succeeds (no extracted frames). -/
def envAllOk : StageEnv :=
  { fileExists := true, download := Except.ok ()
    videoInfo := Except.ok { duration := 1, width := 640, height := 360, codec := "h264" }
    thumbnail := Except.ok (), frames := Except.ok [] }

/-! ## C1 -/

/-- C1 (counterexample): the claim requires the single failure event to
carry the thrown error's message, for every run of `processVideo`.  Copy 2
(checkVideos.js line 359) publishes the fixed string
`Video processing failed` instead: with the probe stage rejecting with
message `Failed to get video info: boom`, the one failure event of the run
carries a different message than the thrown error. -/
theorem C1_counterexample :
    thrownMessage2 demoVideo envProbeFails = some "Failed to get video info: boom" ∧
    (processVideo2 "v1" "u1" demoVideo envProbeFails mockAIAnalysisA).events.filter
        Event.isFailed = [Event.failed "v1" "Video processing failed"] ∧
    ("Video processing failed" : String) ≠ "Failed to get video info: boom" := by
  refine ⟨rfl, ?_, by decide⟩
  rfl

/-- C1 (amended): when any stage of a `processVideo` run throws, both
copies persist a final record with `status='failed'` and
`processingProgress=0` and publish exactly one failure event on the
requesting user's channel; copy 1's event carries the thrown error's
message (with fallback `'Processing failed'` for an empty message), while
copy 2's event carries the fixed message `'Video processing failed'`. -/
theorem C1_failure_events (videoId userId : String) (v0 : Video)
    (env : StageEnv) (classify : List FrameVerdict → SensitivityResult)
    (h : stageThrows1 v0 env) :
    (∃ m, thrownMessage1 v0 env = some m ∧
      (processVideo1 videoId userId v0 env classify).finalRecord.status = "failed" ∧
      (processVideo1 videoId userId v0 env classify).finalRecord.processingProgress = 0 ∧
      (processVideo1 videoId userId v0 env classify).events.filter Event.isFailed
        = [Event.failed videoId (jsOrStr m "Processing failed")]) ∧
    (∃ m, thrownMessage2 v0 env = some m ∧
      (processVideo2 videoId userId v0 env classify).finalRecord.status = "failed" ∧
      (processVideo2 videoId userId v0 env classify).finalRecord.processingProgress = 0 ∧
      (processVideo2 videoId userId v0 env classify).events.filter Event.isFailed
        = [Event.failed videoId "Video processing failed"]) := by
  constructor
  · obtain ⟨m, saved, events, pre, hm, heq, hall, -⟩ :=
      processVideo1_throw videoId userId v0 env classify h
    have hflt : events.filter Event.isFailed = [] := by
      rw [List.filter_eq_nil_iff]
      intro a ha
      have hh := List.all_eq_true.mp hall a ha
      simp only [Bool.not_eq_true'] at hh
      simp [hh]
    refine ⟨m, hm, ?_, ?_, ?_⟩
    · rw [heq]; rfl
    · rw [heq]; rfl
    · rw [heq]
      show (events ++ [Event.failed videoId (jsOrStr m "Processing failed")]).filter
        Event.isFailed = _
      rw [List.filter_append, hflt]
      simp [Event.isFailed]
  · obtain ⟨m, saved, events, pre, hm, heq, hall, -⟩ :=
      processVideo2_throw videoId userId v0 env classify
        (stageThrows2_of_stageThrows1 v0 env h)
    have hflt : events.filter Event.isFailed = [] := by
      rw [List.filter_eq_nil_iff]
      intro a ha
      have hh := List.all_eq_true.mp hall a ha
      simp only [Bool.not_eq_true'] at hh
      simp [hh]
    refine ⟨m, hm, ?_, ?_, ?_⟩
    · rw [heq]; rfl
    · rw [heq]; rfl
    · rw [heq]
      show (events ++ [Event.failed videoId "Video processing failed"]).filter
        Event.isFailed = _
      rw [List.filter_append, hflt]
      simp [Event.isFailed]

/-- C1 witness: the amended theorem applied to a concrete probe failure. -/
theorem C1_failure_events_witness :
    stageThrows1 demoVideo envProbeFails ∧
    (processVideo1 "v1" "u1" demoVideo envProbeFails mockAIAnalysisA).finalRecord.status
      = "failed" ∧
    (processVideo1 "v1" "u1" demoVideo envProbeFails mockAIAnalysisA).finalRecord.processingProgress
      = 0 := by
  obtain ⟨⟨m, hm, h1, h2, h3⟩, -⟩ :=
    C1_failure_events "v1" "u1" demoVideo envProbeFails mockAIAnalysisA
      (Or.inr (Or.inl rfl))
  exact ⟨Or.inr (Or.inl rfl), h1, h2⟩

/-! ## C2 -/

/-- C2: with the classifier being the mock analyzer (any copy — each only
ever answers `safe` or `flagged`), a run of either orchestrator copy in
which all stages succeed persists a final record with `status='completed'`,
`processingProgress=100` and `sensitivityStatus ∈ {safe, flagged}`;
moreover, in every state either copy ever persists (success or failure),
`status='completed'` implies `processingProgress=100` and
`sensitivityStatus ≠ 'pending'`. -/
theorem C2_completed_invariant (videoId userId : String) (v0 : Video)
    (env : StageEnv) (classify : List FrameVerdict → SensitivityResult)
    (hc : ∀ vs, (classify vs).status = "safe" ∨ (classify vs).status = "flagged") :
    (¬ stageThrows1 v0 env →
      ((processVideo1 videoId userId v0 env classify).finalRecord.status = "completed" ∧
       (processVideo1 videoId userId v0 env classify).finalRecord.processingProgress = 100 ∧
       ((processVideo1 videoId userId v0 env classify).finalRecord.sensitivityStatus = "safe" ∨
        (processVideo1 videoId userId v0 env classify).finalRecord.sensitivityStatus = "flagged")) ∧
      ((processVideo2 videoId userId v0 env classify).finalRecord.status = "completed" ∧
       (processVideo2 videoId userId v0 env classify).finalRecord.processingProgress = 100 ∧
       ((processVideo2 videoId userId v0 env classify).finalRecord.sensitivityStatus = "safe" ∨
        (processVideo2 videoId userId v0 env classify).finalRecord.sensitivityStatus = "flagged"))) ∧
    (∀ w ∈ (processVideo1 videoId userId v0 env classify).savedStates,
      w.status = "completed" →
        w.processingProgress = 100 ∧ w.sensitivityStatus ≠ "pending") ∧
    (∀ w ∈ (processVideo2 videoId userId v0 env classify).savedStates,
      w.status = "completed" →
        w.processingProgress = 100 ∧ w.sensitivityStatus ≠ "pending") := by
  refine ⟨?_, ?_, ?_⟩
  · intro hs
    obtain ⟨hp, ⟨info, hi⟩, ht, fs, hf⟩ := not_stageThrows1_elim v0 env hs
    rw [processVideo1_success videoId userId v0 env classify info fs hp hi ht hf,
      processVideo2_success videoId userId v0 env classify info fs
        (preflight2_none_of_preflight1 v0 env hp) hi ht hf]
    exact ⟨⟨rfl, rfl, hc fs⟩, ⟨rfl, rfl, hc fs⟩⟩
  · by_cases hs : stageThrows1 v0 env
    · obtain ⟨m, saved, events, pre, -, heq, -, hsav, -⟩ :=
        processVideo1_throw videoId userId v0 env classify hs
      rw [heq]
      intro w hw hcompl
      simp only [fail1, List.mem_append, List.mem_singleton] at hw
      rcases hw with hw | rfl
      · have hst := List.all_eq_true.mp hsav w hw
        rw [beq_iff_eq] at hst
        rw [hst] at hcompl
        simp at hcompl
      · simp at hcompl
    · obtain ⟨hp, ⟨info, hi⟩, ht, fs, hf⟩ := not_stageThrows1_elim v0 env hs
      rw [processVideo1_success videoId userId v0 env classify info fs hp hi ht hf]
      intro w hw hcompl
      simp only [List.mem_cons, List.not_mem_nil, or_false] at hw
      rcases hw with rfl | rfl | rfl | rfl | rfl | rfl
      · simp at hcompl
      · simp at hcompl
      · simp at hcompl
      · simp at hcompl
      · simp at hcompl
      · refine ⟨rfl, ?_⟩
        rcases hc fs with h | h <;> simp [h]
  · by_cases hs : stageThrows2 v0 env
    · obtain ⟨m, saved, events, pre, -, heq, -, hsav, -⟩ :=
        processVideo2_throw videoId userId v0 env classify hs
      rw [heq]
      intro w hw hcompl
      simp only [fail2, List.mem_append, List.mem_singleton] at hw
      rcases hw with hw | rfl
      · have hst := List.all_eq_true.mp hsav w hw
        rw [beq_iff_eq] at hst
        rw [hst] at hcompl
        simp at hcompl
      · simp at hcompl
    · have hs1 : ¬ stageThrows1 v0 env := fun hx =>
        hs (stageThrows2_of_stageThrows1 v0 env hx)
      obtain ⟨hp, ⟨info, hi⟩, ht, fs, hf⟩ := not_stageThrows1_elim v0 env hs1
      rw [processVideo2_success videoId userId v0 env classify info fs
        (preflight2_none_of_preflight1 v0 env hp) hi ht hf]
      intro w hw hcompl
      simp only [List.mem_cons, List.not_mem_nil, or_false] at hw
      rcases hw with rfl | rfl | rfl | rfl | rfl | rfl
      · simp at hcompl
      · simp at hcompl
      · simp at hcompl
      · simp at hcompl
      · simp at hcompl
      · refine ⟨rfl, ?_⟩
        rcases hc fs with h | h <;> simp [h]

/-- C2 witness: the invariant applied to a concrete fully-successful run
with the copy-A mock classifier. -/
theorem C2_completed_invariant_witness :
    (¬ stageThrows1 demoVideo envAllOk) ∧
    (processVideo1 "v1" "u1" demoVideo envAllOk mockAIAnalysisA).finalRecord.status
      = "completed" ∧
    (processVideo1 "v1" "u1" demoVideo envAllOk mockAIAnalysisA).finalRecord.processingProgress
      = 100 ∧
    ((processVideo1 "v1" "u1" demoVideo envAllOk mockAIAnalysisA).finalRecord.sensitivityStatus = "safe" ∨
     (processVideo1 "v1" "u1" demoVideo envAllOk mockAIAnalysisA).finalRecord.sensitivityStatus = "flagged") := by
  have hns : ¬ stageThrows1 demoVideo envAllOk := by
    unfold stageThrows1
    decide
  obtain ⟨hok, -, -⟩ :=
    C2_completed_invariant "v1" "u1" demoVideo envAllOk mockAIAnalysisA
      mockAIAnalysisA_status
  obtain ⟨⟨h1, h2, h3⟩, -⟩ := hok hns
  exact ⟨hns, h1, h2, h3⟩

/-! ## C3 -/

/-- C3 (counterexample): the claim requires a progress event after each of
the six persisted checkpoints.  In a concrete fully-successful run of
copy 1, the persisted checkpoints are 0, 20, 40, 60, 80, 100, yet the
progress events published carry only 0, 20, 40, 60, 80 — the final
checkpoint 100 is followed by a completion event, not a progress event. -/
theorem C3_counterexample :
    ((processVideo1 "v1" "u1" demoVideo envAllOk mockAIAnalysisA).savedStates.map
      (fun w => w.processingProgress)) = [0, 20, 40, 60, 80, 100] ∧
    ((processVideo1 "v1" "u1" demoVideo envAllOk mockAIAnalysisA).events.filterMap
      Event.progressValue?) = [0, 20, 40, 60, 80] ∧
    ¬ (100 ∈ (processVideo1 "v1" "u1" demoVideo envAllOk mockAIAnalysisA).events.filterMap
      Event.progressValue?) := by
  rw [processVideo1_success "v1" "u1" demoVideo envAllOk mockAIAnalysisA
    { duration := 1, width := 640, height := 360, codec := "h264" } [] rfl rfl rfl rfl]
  refine ⟨rfl, rfl, by decide⟩

/-- C3 (amended): in every run of either copy in which all stages succeed,
the persisted `processingProgress` checkpoints are exactly
0, 20, 40, 60, 80, 100 in strictly increasing order, a progress event is
published after each of the checkpoints 0–80, and the final checkpoint 100
is followed by a completion event; in every run (including failing ones),
the persisted progress never decreases while the persisted status is
`processing`. -/
theorem C3_checkpoints (videoId userId : String) (v0 : Video)
    (env : StageEnv) (classify : List FrameVerdict → SensitivityResult) :
    (¬ stageThrows1 v0 env →
      ((processVideo1 videoId userId v0 env classify).savedStates.map
        (fun w => w.processingProgress)) = [0, 20, 40, 60, 80, 100] ∧
      List.Chain' (· < ·) ((processVideo1 videoId userId v0 env classify).savedStates.map
        (fun w => w.processingProgress)) ∧
      ((processVideo1 videoId userId v0 env classify).events.filterMap
        Event.progressValue?) = [0, 20, 40, 60, 80] ∧
      (∃ s r d, (processVideo1 videoId userId v0 env classify).events
        = [Event.progress videoId 0 (some "processing"), Event.progress videoId 20 none,
           Event.progress videoId 40 none, Event.progress videoId 60 none,
           Event.progress videoId 80 none, Event.complete videoId "completed" s r d]) ∧
      ((processVideo2 videoId userId v0 env classify).savedStates.map
        (fun w => w.processingProgress)) = [0, 20, 40, 60, 80, 100] ∧
      ((processVideo2 videoId userId v0 env classify).events.filterMap
        Event.progressValue?) = [0, 20, 40, 60, 80] ∧
      (∃ s r d, (processVideo2 videoId userId v0 env classify).events
        = [Event.progress videoId 0 (some "processing"),
           Event.progress videoId 20 (some "processing"),
           Event.progress videoId 40 (some "processing"),
           Event.progress videoId 60 (some "processing"),
           Event.progress videoId 80 (some "processing"),
           Event.complete videoId "completed" s r d])) ∧
    List.Chain' (fun a b => b.status = "processing" →
      a.processingProgress ≤ b.processingProgress)
      (processVideo1 videoId userId v0 env classify).savedStates ∧
    List.Chain' (fun a b => b.status = "processing" →
      a.processingProgress ≤ b.processingProgress)
      (processVideo2 videoId userId v0 env classify).savedStates := by
  refine ⟨?_, ?_, ?_⟩
  · intro hs
    obtain ⟨hp, ⟨info, hi⟩, ht, fs, hf⟩ := not_stageThrows1_elim v0 env hs
    rw [processVideo1_success videoId userId v0 env classify info fs hp hi ht hf,
      processVideo2_success videoId userId v0 env classify info fs
        (preflight2_none_of_preflight1 v0 env hp) hi ht hf]
    refine ⟨rfl, by simp [List.chain'_cons], rfl,
      ⟨(classify fs).status, jsOrStr (classify fs).reason "", info.duration, rfl⟩, rfl, rfl,
      ⟨(classify fs).status, jsOrStr (classify fs).reason "", info.duration, rfl⟩⟩
  · by_cases hs : stageThrows1 v0 env
    · obtain ⟨m, saved, events, pre, -, heq, -, -, hchain, -⟩ :=
        processVideo1_throw videoId userId v0 env classify hs
      rw [heq]
      show List.Chain' _ (saved ++ [{ pre with status := "failed", processingProgress := 0 }])
      rw [List.chain'_append]
      refine ⟨hchain.imp (fun a b hab => fun (x : b.status = "processing") => hab), List.chain'_singleton _, ?_⟩
      intro x hx y hy
      simp only [List.head?_cons, Option.mem_def, Option.some.injEq] at hy
      subst hy
      intro habs
      simp at habs
    · obtain ⟨hp, ⟨info, hi⟩, ht, fs, hf⟩ := not_stageThrows1_elim v0 env hs
      rw [processVideo1_success videoId userId v0 env classify info fs hp hi ht hf]
      refine List.chain'_cons.mpr ⟨fun _ => by norm_num, ?_⟩
      refine List.chain'_cons.mpr ⟨fun _ => by norm_num, ?_⟩
      refine List.chain'_cons.mpr ⟨fun _ => by norm_num, ?_⟩
      refine List.chain'_cons.mpr ⟨fun _ => by norm_num, ?_⟩
      refine List.chain'_cons.mpr ⟨fun _ => by norm_num, ?_⟩
      exact List.chain'_singleton _
  · by_cases hs : stageThrows2 v0 env
    · obtain ⟨m, saved, events, pre, -, heq, -, -, hchain, -⟩ :=
        processVideo2_throw videoId userId v0 env classify hs
      rw [heq]
      show List.Chain' _ (saved ++ [{ pre with status := "failed", processingProgress := 0 }])
      rw [List.chain'_append]
      refine ⟨hchain.imp (fun a b hab => fun (x : b.status = "processing") => hab), List.chain'_singleton _, ?_⟩
      intro x hx y hy
      simp only [List.head?_cons, Option.mem_def, Option.some.injEq] at hy
      subst hy
      intro habs
      simp at habs
    · have hs1 : ¬ stageThrows1 v0 env := fun hx =>
        hs (stageThrows2_of_stageThrows1 v0 env hx)
      obtain ⟨hp, ⟨info, hi⟩, ht, fs, hf⟩ := not_stageThrows1_elim v0 env hs1
      rw [processVideo2_success videoId userId v0 env classify info fs
        (preflight2_none_of_preflight1 v0 env hp) hi ht hf]
      refine List.chain'_cons.mpr ⟨fun _ => by norm_num, ?_⟩
      refine List.chain'_cons.mpr ⟨fun _ => by norm_num, ?_⟩
      refine List.chain'_cons.mpr ⟨fun _ => by norm_num, ?_⟩
      refine List.chain'_cons.mpr ⟨fun _ => by norm_num, ?_⟩
      refine List.chain'_cons.mpr ⟨fun _ => by norm_num, ?_⟩
      exact List.chain'_singleton _

/-- C3 witness: the amended theorem applied to a concrete successful run. -/
theorem C3_checkpoints_witness :
    (¬ stageThrows1 demoVideo envAllOk) ∧
    ((processVideo1 "v1" "u1" demoVideo envAllOk mockAIAnalysisA).savedStates.map
      (fun w => w.processingProgress)) = [0, 20, 40, 60, 80, 100] ∧
    ((processVideo1 "v1" "u1" demoVideo envAllOk mockAIAnalysisA).events.filterMap
      Event.progressValue?) = [0, 20, 40, 60, 80] := by
  have hns : ¬ stageThrows1 demoVideo envAllOk := by
    unfold stageThrows1
    decide
  obtain ⟨hok, -, -⟩ := C3_checkpoints "v1" "u1" demoVideo envAllOk mockAIAnalysisA
  obtain ⟨h1, -, h2, -⟩ := hok hns
  exact ⟨hns, h1, h2⟩

/-! ## Classifier aggregation lemmas -/

/-- For a nonempty frame list the `Math.max(·,1)` guard on the ratio
denominator is the identity. -/
theorem maxlen_eq (vs : List FrameVerdict) (hne : vs ≠ []) :
    ((vs.length : ℚ) ⊔ 1) = (vs.length : ℚ) := by
  have hpos : 0 < vs.length := List.length_pos.mpr hne
  have h1 : (1 : ℚ) ≤ (vs.length : ℚ) := by exact_mod_cast hpos
  exact max_eq_left h1

/-- On a nonempty verdict list copies A and B of the aggregation agree
(their only difference is the `Math.max(·,1)` guard on the ratio
denominator, which is the identity there). -/
theorem mockAIAnalysisB_eq_A (vs : List FrameVerdict) (hne : vs ≠ []) :
    mockAIAnalysisB vs = mockAIAnalysisA vs := by
  unfold mockAIAnalysisA mockAIAnalysisB
  dsimp only
  rw [maxlen_eq vs hne]

/-- Copy A flags the video exactly when the flagged/total ratio exceeds
the 0.15 threshold (nonempty list). -/
theorem mockAIAnalysisA_flagged_iff (vs : List FrameVerdict) (hne : vs ≠ []) :
    ((mockAIAnalysisA vs).status = "flagged" ↔
      ((vs.filter (·.flagged)).length : ℚ) / (vs.length : ℚ) > 15/100) := by
  unfold mockAIAnalysisA
  dsimp only
  rw [maxlen_eq vs hne]
  split
  · rename_i h
    exact iff_of_true rfl h
  · rename_i h
    exact iff_of_false (by simp) h

/-- Copy A's reason: the first flagged verdict's reason when flagged
(given flagged verdicts carry nonempty reasons), empty when safe. -/
theorem mockAIAnalysisA_reason (vs : List FrameVerdict)
    (hwf : ∀ v ∈ vs, v.flagged = true → v.reason ≠ "") :
    ((mockAIAnalysisA vs).status = "flagged" →
      (vs.filter (·.flagged)).head?.map (fun v => v.reason)
        = some ((mockAIAnalysisA vs).reason)) ∧
    ((mockAIAnalysisA vs).status = "safe" → (mockAIAnalysisA vs).reason = "") := by
  unfold mockAIAnalysisA
  dsimp only
  split
  · rename_i h
    constructor
    · intro _
      rcases hfl : vs.filter (fun v => v.flagged) with _ | ⟨f, rest⟩
      · rw [hfl] at h
        norm_num at h
      · have hfmem : f ∈ vs.filter (fun v => v.flagged) := by
          rw [hfl]; exact List.mem_cons_self f rest
        have hfv : f ∈ vs := List.mem_of_mem_filter hfmem
        have hff : f.flagged = true := by simpa using List.of_mem_filter hfmem
        have hr : f.reason ≠ "" := hwf f hfv hff
        rw [hfl]
        simp [jsOrStr, hr]
    · intro habs
      simp at habs
  · constructor
    · intro habs
      simp at habs
    · intro _
      rfl

/-- Copy A's `details` frame counts are the flagged and total counts. -/
theorem mockAIAnalysisA_counts (vs : List FrameVerdict) :
    (mockAIAnalysisA vs).flaggedFrames = (vs.filter (·.flagged)).length ∧
    (mockAIAnalysisA vs).totalFrames = vs.length := by
  unfold mockAIAnalysisA
  dsimp only
  split
  · exact ⟨rfl, rfl⟩
  · exact ⟨rfl, rfl⟩

/-! ## C4 -/

/-- C4: on any fixed nonempty list of frame-level verdicts (as produced by
`analyzeFrame`, whose flagged verdicts always carry a nonempty reason from
the fixed list), both cited copies of `mockAIAnalysis` decide the
video-level status purely by comparing the flagged/total ratio with the
0.15 threshold: `status='flagged'` iff the ratio exceeds it; when flagged
the returned reason is the first flagged verdict's reason, when safe the
reason is empty; and the result carries the flagged/total frame counts
(copy C is the same aggregation function as copy A). -/
theorem C4_classifier_aggregation (vs : List FrameVerdict) (hne : vs ≠ [])
    (hwf : ∀ v ∈ vs, v.flagged = true → v.reason ≠ "") :
    (((mockAIAnalysisA vs).status = "flagged" ↔
        ((vs.filter (·.flagged)).length : ℚ) / (vs.length : ℚ) > 15/100) ∧
      ((mockAIAnalysisA vs).status = "flagged" ∨ (mockAIAnalysisA vs).status = "safe") ∧
      ((mockAIAnalysisA vs).status = "flagged" →
        (vs.filter (·.flagged)).head?.map (fun v => v.reason)
          = some ((mockAIAnalysisA vs).reason)) ∧
      ((mockAIAnalysisA vs).status = "safe" → (mockAIAnalysisA vs).reason = "") ∧
      (mockAIAnalysisA vs).flaggedFrames = (vs.filter (·.flagged)).length ∧
      (mockAIAnalysisA vs).totalFrames = vs.length) ∧
    (((mockAIAnalysisB vs).status = "flagged" ↔
        ((vs.filter (·.flagged)).length : ℚ) / (vs.length : ℚ) > 15/100) ∧
      ((mockAIAnalysisB vs).status = "flagged" ∨ (mockAIAnalysisB vs).status = "safe") ∧
      ((mockAIAnalysisB vs).status = "flagged" →
        (vs.filter (·.flagged)).head?.map (fun v => v.reason)
          = some ((mockAIAnalysisB vs).reason)) ∧
      ((mockAIAnalysisB vs).status = "safe" → (mockAIAnalysisB vs).reason = "") ∧
      (mockAIAnalysisB vs).flaggedFrames = (vs.filter (·.flagged)).length ∧
      (mockAIAnalysisB vs).totalFrames = vs.length) ∧
    (∀ ws, mockAIAnalysisC ws = mockAIAnalysisA ws) := by
  have hA := mockAIAnalysisA_flagged_iff vs hne
  have hAr := mockAIAnalysisA_reason vs hwf
  have hAc := mockAIAnalysisA_counts vs
  have hAs := (mockAIAnalysisA_status vs).symm
  refine ⟨⟨hA, ?_, hAr.1, hAr.2, hAc.1, hAc.2⟩, ?_, fun ws => rfl⟩
  · rcases mockAIAnalysisA_status vs with h | h
    · exact Or.inr h
    · exact Or.inl h
  · rw [mockAIAnalysisB_eq_A vs hne]
    refine ⟨hA, ?_, hAr.1, hAr.2, hAc.1, hAc.2⟩
    rcases mockAIAnalysisA_status vs with h | h
    · exact Or.inr h
    · exact Or.inl h

/-- A fixed verdict list with one flagged frame out of five (the 1/5 case
of the spec's test vector). -/
def verdictsOneOfFive : List FrameVerdict :=
  [{ flagged := true, reason := "Violence detected", confidence := 1, frameIndex := 0 },
   { flagged := false, reason := "", confidence := 1, frameIndex := 1 },
   { flagged := false, reason := "", confidence := 1, frameIndex := 2 },
   { flagged := false, reason := "", confidence := 1, frameIndex := 3 },
   { flagged := false, reason := "", confidence := 1, frameIndex := 4 }]

/-- C4 witness: 1 flagged frame of 5 (ratio 0.2 > 0.15) is flagged, with
the counts from the verdict list. -/
theorem C4_classifier_aggregation_witness :
    verdictsOneOfFive ≠ [] ∧
    (∀ v ∈ verdictsOneOfFive, v.flagged = true → v.reason ≠ "") ∧
    (mockAIAnalysisA verdictsOneOfFive).status = "flagged" ∧
    (mockAIAnalysisA verdictsOneOfFive).flaggedFrames = 1 ∧
    (mockAIAnalysisA verdictsOneOfFive).totalFrames = 5 := by
  obtain ⟨⟨hiff, -, -, -, hcnt, htot⟩, -, -⟩ :=
    C4_classifier_aggregation verdictsOneOfFive (by decide) (by decide)
  refine ⟨by decide, by decide, ?_, ?_, ?_⟩
  · apply hiff.mpr
    have h1 : (verdictsOneOfFive.filter (·.flagged)).length = 1 := by decide
    have h2 : verdictsOneOfFive.length = 5 := by decide
    rw [h1, h2]
    norm_num
  · rw [hcnt]
    decide
  · rw [htot]
    decide

/-! ## C10 -/

/-- C10: on the empty frame list every copy of `mockAIAnalysis` is total
and returns the well-defined safe verdict: `status='safe'`, empty reason,
confidence 0, and zero frame counts.  (In copies A and C both divisions
are guarded by `Math.max(·,1)`; in copy B the ratio denominator is the raw
frame count, but JavaScript's `0/0 = NaN` compares false against the
threshold, so the safe branch is taken there too.) -/
theorem C10_empty_frames :
    mockAIAnalysisA [] = { status := "safe", reason := "", confidence := 0, flaggedFrames := 0, totalFrames := 0 } ∧
    mockAIAnalysisB [] = { status := "safe", reason := "", confidence := 0, flaggedFrames := 0, totalFrames := 0 } ∧
    mockAIAnalysisC [] = { status := "safe", reason := "", confidence := 0, flaggedFrames := 0, totalFrames := 0 } := by
  refine ⟨?_, ?_, ?_⟩
  · unfold mockAIAnalysisA
    norm_num
  · unfold mockAIAnalysisB
    norm_num
  · unfold mockAIAnalysisC mockAIAnalysisA
    norm_num

/-! ## C5 -/

/-- A uniform draw in [0,1) picks an element of a nonempty reason list. -/
theorem pickReason_mem (reasons : List String) (d : ℚ) (h0 : 0 ≤ d)
    (h1 : d < 1) (hne : reasons ≠ []) : pickReason reasons d ∈ reasons := by
  unfold pickReason
  have hn : 0 < reasons.length := List.length_pos.mpr hne
  have hflt : ⌊d * (reasons.length : ℚ)⌋ < (reasons.length : ℤ) := by
    apply Int.floor_lt.mpr
    push_cast
    calc d * (reasons.length : ℚ) < 1 * (reasons.length : ℚ) := by
          apply mul_lt_mul_of_pos_right h1
          exact_mod_cast hn
      _ = (reasons.length : ℚ) := one_mul _
  have hlt : (Int.toNat ⌊d * (reasons.length : ℚ)⌋) < reasons.length := by
    rw [Int.toNat_lt' (Nat.pos_iff_ne_zero.mp hn)]
    exact hflt
  rw [List.getD_eq_getElem _ _ hlt]
  exact List.getElem_mem hlt

/-- C5 (counterexample): the claim says the frame is flagged iff the draw
is below a constant independent of the frame's index.  In copy B the flip
threshold is `0.1 + (index/10)*0.1`: the same draw 0.12 leaves frame 0
unflagged but flags frame 3, so no index-independent threshold reproduces
copy B's verdicts. -/
theorem C5_counterexample :
    (analyzeFrameB "frame.png" 0 (12/100) 0 0).flagged = false ∧
    (analyzeFrameB "frame.png" 3 (12/100) 0 0).flagged = true ∧
    ¬ ∃ thr : ℚ, ∀ idx : Nat,
      (analyzeFrameB "frame.png" idx (12/100) 0 0).flagged
        = decide ((12 : ℚ)/100 < thr) := by
  have hb0 : (analyzeFrameB "frame.png" 0 (12/100) 0 0).flagged = false := by
    unfold analyzeFrameB
    rw [if_neg (by norm_num)]
  have hb3 : (analyzeFrameB "frame.png" 3 (12/100) 0 0).flagged = true := by
    unfold analyzeFrameB
    rw [if_pos (by norm_num)]
  refine ⟨hb0, hb3, ?_⟩
  rintro ⟨thr, hthr⟩
  have h0 := hthr 0
  have h3 := hthr 3
  rw [hb0] at h0
  rw [hb3] at h3
  exact Bool.noConfusion (h0.trans h3.symm)

/-- C5 (amended): in copies A and C the per-frame flip threshold is a
constant (0.1 and 0.08 respectively) independent of the frame's path and
index, while in copy B it is `0.1 + index/100`, growing with the index;
in every copy a flagged verdict's reason is drawn from the copy's fixed
reason list (for any reason draw in [0,1)). -/
theorem C5_frame_flip (framePath : String) (index : Nat)
    (draw reasonDraw confDraw : ℚ) (h0 : 0 ≤ reasonDraw) (h1 : reasonDraw < 1) :
    ((analyzeFrameA framePath index draw reasonDraw confDraw).flagged = true ↔
      draw < 1/10) ∧
    ((analyzeFrameC framePath index draw reasonDraw confDraw).flagged = true ↔
      draw < 8/100) ∧
    ((analyzeFrameB framePath index draw reasonDraw confDraw).flagged = true ↔
      draw < 1/10 + (index : ℚ)/100) ∧
    ((analyzeFrameA framePath index draw reasonDraw confDraw).flagged = true →
      (analyzeFrameA framePath index draw reasonDraw confDraw).reason ∈ reasonsAC) ∧
    ((analyzeFrameB framePath index draw reasonDraw confDraw).flagged = true →
      (analyzeFrameB framePath index draw reasonDraw confDraw).reason ∈ reasonsB) ∧
    ((analyzeFrameC framePath index draw reasonDraw confDraw).flagged = true →
      (analyzeFrameC framePath index draw reasonDraw confDraw).reason ∈ reasonsAC) := by
  have hBthr : (1 : ℚ)/10 + ((index : ℚ)/10) * (1/10) = 1/10 + (index : ℚ)/100 := by
    ring
  refine ⟨?_, ?_, ?_, ?_, ?_, ?_⟩
  · unfold analyzeFrameA
    split
    · rename_i h; exact iff_of_true rfl h
    · rename_i h; exact iff_of_false (by simp) h
  · unfold analyzeFrameC
    split
    · rename_i h; exact iff_of_true rfl h
    · rename_i h; exact iff_of_false (by simp) h
  · unfold analyzeFrameB
    rw [hBthr]
    split
    · rename_i h; exact iff_of_true rfl h
    · rename_i h; exact iff_of_false (by simp) h
  · unfold analyzeFrameA
    split
    · intro _; exact pickReason_mem reasonsAC reasonDraw h0 h1 (by decide)
    · intro habs; simp at habs
  · unfold analyzeFrameB
    split
    · intro _; exact pickReason_mem reasonsB reasonDraw h0 h1 (by decide)
    · intro habs; simp at habs
  · unfold analyzeFrameC
    split
    · intro _; exact pickReason_mem reasonsAC reasonDraw h0 h1 (by decide)
    · intro habs; simp at habs

/-- C5 witness: the amended theorem at a concrete draw. -/
theorem C5_frame_flip_witness :
    ((0 : ℚ) ≤ 1/2 ∧ (1/2 : ℚ) < 1) ∧
    ((analyzeFrameA "f.png" 0 (5/100) (1/2) 0).flagged = true ↔ (5 : ℚ)/100 < 1/10) ∧
    ((analyzeFrameA "f.png" 0 (5/100) (1/2) 0).flagged = true →
      (analyzeFrameA "f.png" 0 (5/100) (1/2) 0).reason ∈ reasonsAC) := by
  have happ := C5_frame_flip "f.png" 0 (5/100) (1/2) 0 (by norm_num) (by norm_num)
  exact ⟨⟨by norm_num, by norm_num⟩, happ.1, happ.2.2.2.1⟩

/-! ## C6 -/

/-- C6 (counterexample): the claim says the record is created with
`status='uploading'` at upload time.  The active upload route passes an
explicit `status: 'processing'` to `new Video({...})` (videos.js line 87),
overriding the schema default `'uploading'`: the created record of a
concrete upload already has `status='processing'`. -/
theorem C6_counterexample :
    ((uploadHandler "My clip" none
      (some { path := "http://res.cloudinary.com/demo.mp4", filename := "abc"
              mimetype := "video/mp4", size := 5 }) "v9" "u1" "t1").videoBody.map
        (fun v => v.status)) = some "processing" ∧
    videoSchemaDefaultStatus = "uploading" ∧
    ("processing" : String) ≠ "uploading" := by
  exact ⟨rfl, rfl, by decide⟩

/-- C6 (amended): the upload route creates the MediaItem with an explicit
`status='processing'` (overriding the schema's `'uploading'` default),
`processingProgress=0` and `sensitivityStatus='pending'`, starts the
orchestrator without awaiting it (the 201 response is the first component
of `uploadThenProcess1` and never consults the pipeline's outcomes), and
answers 201 with the created record. -/
theorem C6_upload (title : String) (description : Option String)
    (f : UploadedFile) (newId uid tid : String) (env : StageEnv)
    (classify : List FrameVerdict → SensitivityResult) (hf : ¬ f.path = "") :
    (uploadHandler title description (some f) newId uid tid).code = 201 ∧
    (uploadHandler title description (some f) newId uid tid).videoBody
      = some (newUploadVideo newId title (description.getD "") f.path uid tid) ∧
    (newUploadVideo newId title (description.getD "") f.path uid tid).status
      = "processing" ∧
    (newUploadVideo newId title (description.getD "") f.path uid tid).processingProgress
      = 0 ∧
    (newUploadVideo newId title (description.getD "") f.path uid tid).sensitivityStatus
      = "pending" ∧
    (uploadHandler title description (some f) newId uid tid).spawned
      = some (newId, uid) ∧
    (uploadThenProcess1 title description (some f) newId uid tid env classify).fst
      = uploadHandler title description (some f) newId uid tid := by
  unfold uploadThenProcess1 uploadHandler
  simp [if_neg hf]
  exact ⟨rfl, rfl, rfl⟩

/-- C6 witness: the amended theorem at a concrete Cloudinary upload. -/
theorem C6_upload_witness :
    (¬ ("http://res.cloudinary.com/demo.mp4" : String) = "") ∧
    (uploadHandler "My clip" none
      (some { path := "http://res.cloudinary.com/demo.mp4", filename := "abc"
              mimetype := "video/mp4", size := 5 }) "v9" "u1" "t1").code = 201 ∧
    (newUploadVideo "v9" "My clip" "" "http://res.cloudinary.com/demo.mp4" "u1" "t1").status
      = "processing" := by
  have happ := C6_upload "My clip" none
    { path := "http://res.cloudinary.com/demo.mp4", filename := "abc"
      mimetype := "video/mp4", size := 5 } "v9" "u1" "t1" envAllOk mockAIAnalysisA
    (by decide)
  exact ⟨by decide, happ.1, happ.2.2.1⟩

/-! ## C7 -/

/-- C7: every record the list endpoint returns carries the caller's
`userId` and `tenantId` and matches any supplied (truthy) `status` /
`sensitivityStatus` filters; the record the get-by-id endpoint returns
carries the caller's `userId` and `tenantId` (and is served with 200). -/
theorem C7_scoped_queries (db : List Video) (uid tid statusQ sensQ id : String) :
    (∀ v ∈ listVideosHandler db uid tid statusQ sensQ,
      v.userId = uid ∧ v.tenantId = tid ∧
      (statusQ ≠ "" → v.status = statusQ) ∧
      (sensQ ≠ "" → v.sensitivityStatus = sensQ)) ∧
    (∀ v, (getVideoHandler db id uid tid).2 = some v →
      v.userId = uid ∧ v.tenantId = tid ∧ (getVideoHandler db id uid tid).1 = 200) := by
  constructor
  · intro v hv
    unfold listVideosHandler at hv
    have hmem := List.of_mem_filter hv
    unfold matchesListFilters at hmem
    simp only [Bool.and_eq_true, Bool.or_eq_true, decide_eq_true_eq] at hmem
    obtain ⟨⟨⟨hu, ht⟩, hs⟩, hss⟩ := hmem
    refine ⟨hu, ht, ?_, ?_⟩
    · intro hq
      rcases hs with h | h
      · exact absurd h hq
      · exact h
    · intro hq
      rcases hss with h | h
      · exact absurd h hq
      · exact h
  · intro v hv
    rcases hfind : findOneUserVideo db id uid tid with _ | w
    · unfold getVideoHandler at hv
      rw [hfind] at hv
      simp at hv
    · unfold getVideoHandler at hv
      rw [hfind] at hv
      simp only [Option.some.injEq] at hv
      subst hv
      have hpred := List.find?_some hfind
      simp only [Bool.and_eq_true, decide_eq_true_eq] at hpred
      exact ⟨hpred.1.2, hpred.2, by unfold getVideoHandler; rw [hfind]⟩

/-- A completed record owned by user u1 / tenant t1. -/
def demoCompleted : Video :=
  { demoVideo with status := "completed", processingProgress := 100, sensitivityStatus := "safe" }

/-- A record owned by a different user. -/
def otherUserVideo : Video :=
  { demoVideo with _id := "v2", userId := "u2" }

/-- C7 witness: the scoping theorem at a concrete store and query. -/
theorem C7_scoped_queries_witness :
    demoCompleted ∈ listVideosHandler [demoCompleted, otherUserVideo] "u1" "t1" "completed" "" ∧
    demoCompleted.userId = "u1" ∧ demoCompleted.tenantId = "t1" ∧
    demoCompleted.status = "completed" := by
  have hmem : demoCompleted ∈
      listVideosHandler [demoCompleted, otherUserVideo] "u1" "t1" "completed" "" := by
    decide
  have happ := (C7_scoped_queries [demoCompleted, otherUserVideo]
    "u1" "t1" "completed" "" "v1").1 demoCompleted hmem
  exact ⟨hmem, happ.1, happ.2.1, happ.2.2.1 (by decide)⟩

/-! ## C8 -/

/-- C8: the stream endpoint serves media bytes only when the scoped lookup
finds a record with `status='completed'`; with no record it answers 404
without bytes, and with a record that is not completed it answers 400
(`'Video is still processing'`) without bytes. -/
theorem C8_stream_requires_completed (db : List Video) (id uid tid : String)
    (fetchOk fileEx rng : Bool) :
    ((streamHandler db id uid tid fetchOk fileEx rng).servedBytes = true →
      ∃ v, findOneUserVideo db id uid tid = some v ∧ v.status = "completed") ∧
    (findOneUserVideo db id uid tid = none →
      streamHandler db id uid tid fetchOk fileEx rng
        = { code := 404, servedBytes := false }) ∧
    (∀ v, findOneUserVideo db id uid tid = some v → v.status ≠ "completed" →
      streamHandler db id uid tid fetchOk fileEx rng
        = { code := 400, servedBytes := false }) := by
  rcases hfind : findOneUserVideo db id uid tid with _ | v
  · refine ⟨?_, ?_, ?_⟩
    · intro hserved
      unfold streamHandler at hserved
      rw [hfind] at hserved
      simp at hserved
    · intro _
      unfold streamHandler
      rw [hfind]
    · intro w hw
      simp at hw
  · refine ⟨?_, ?_, ?_⟩
    · by_cases hst : v.status = "completed"
      · exact fun _ => ⟨v, rfl, hst⟩
      · intro hserved
        unfold streamHandler at hserved
        rw [hfind] at hserved
        simp [hst] at hserved
    · intro h
      simp at h
    · intro w hw hne
      have hwv : v = w := by
        injection hw
      subst hwv
      unfold streamHandler
      rw [hfind]
      simp [hne]

/-- C8 witness: a concrete completed local record is range-served, and the
gate theorem yields the completed-record certificate. -/
theorem C8_stream_requires_completed_witness :
    (streamHandler [demoCompleted] "v1" "u1" "t1" true true false).servedBytes = true ∧
    (∃ v, findOneUserVideo [demoCompleted] "v1" "u1" "t1" = some v ∧
      v.status = "completed") := by
  have happ := (C8_stream_requires_completed [demoCompleted] "v1" "u1" "t1"
    true true false).1 (by decide)
  exact ⟨by decide, happ⟩

/-! ## C9 -/

/-- C9: when a stage throws, the persisted failure update of either copy
writes only `status` and `processingProgress`: every other field of the
final record keeps the value the database record had before the failure —
all fields other than `duration` keep `v0`'s values (in particular
`sensitivityStatus` can remain `'pending'` in a failed record), and
`duration` keeps the probed duration when the probe stage persisted one
before a later stage failed, `v0`'s duration otherwise. -/
theorem C9_failure_frame (videoId userId : String) (v0 : Video)
    (env : StageEnv) (classify : List FrameVerdict → SensitivityResult)
    (h : stageThrows1 v0 env) :
    ((processVideo1 videoId userId v0 env classify).finalRecord.title = v0.title ∧
     (processVideo1 videoId userId v0 env classify).finalRecord.description = v0.description ∧
     (processVideo1 videoId userId v0 env classify).finalRecord.path = v0.path ∧
     (processVideo1 videoId userId v0 env classify).finalRecord.sensitivityStatus
       = v0.sensitivityStatus ∧
     (processVideo1 videoId userId v0 env classify).finalRecord.flagReason = v0.flagReason ∧
     (processVideo1 videoId userId v0 env classify).finalRecord.userId = v0.userId ∧
     (processVideo1 videoId userId v0 env classify).finalRecord.tenantId = v0.tenantId ∧
     (processVideo1 videoId userId v0 env classify).finalRecord.status = "failed" ∧
     (processVideo1 videoId userId v0 env classify).finalRecord.processingProgress = 0 ∧
     (∀ info, preflight1 v0 env = none → env.videoInfo = Except.ok info →
       (processVideo1 videoId userId v0 env classify).finalRecord.duration = info.duration) ∧
     ((preflight1 v0 env).isSome = true ∨ isErr env.videoInfo = true →
       (processVideo1 videoId userId v0 env classify).finalRecord.duration = v0.duration)) ∧
    ((processVideo2 videoId userId v0 env classify).finalRecord.title = v0.title ∧
     (processVideo2 videoId userId v0 env classify).finalRecord.description = v0.description ∧
     (processVideo2 videoId userId v0 env classify).finalRecord.path = v0.path ∧
     (processVideo2 videoId userId v0 env classify).finalRecord.sensitivityStatus
       = v0.sensitivityStatus ∧
     (processVideo2 videoId userId v0 env classify).finalRecord.flagReason = v0.flagReason ∧
     (processVideo2 videoId userId v0 env classify).finalRecord.userId = v0.userId ∧
     (processVideo2 videoId userId v0 env classify).finalRecord.tenantId = v0.tenantId ∧
     (processVideo2 videoId userId v0 env classify).finalRecord.status = "failed" ∧
     (processVideo2 videoId userId v0 env classify).finalRecord.processingProgress = 0 ∧
     (∀ info, preflight2 v0 env = none → env.videoInfo = Except.ok info →
       (processVideo2 videoId userId v0 env classify).finalRecord.duration = info.duration) ∧
     ((preflight2 v0 env).isSome = true ∨ isErr env.videoInfo = true →
       (processVideo2 videoId userId v0 env classify).finalRecord.duration = v0.duration)) := by
  constructor
  · obtain ⟨m, saved, events, pre, -, heq, -, -, -, hti, hde, hpa, hse, hfl, hus, hte, hd1, hd2⟩ :=
      processVideo1_throw videoId userId v0 env classify h
    rw [heq]
    refine ⟨hti, hde, hpa, hse, hfl, hus, hte, rfl, rfl, ?_, ?_⟩
    · intro info hp hi
      exact hd1 info hp hi
    · intro hbad
      exact hd2 hbad
  · obtain ⟨m, saved, events, pre, -, heq, -, -, -, hti, hde, hpa, hse, hfl, hus, hte, hd1, hd2⟩ :=
      processVideo2_throw videoId userId v0 env classify
        (stageThrows2_of_stageThrows1 v0 env h)
    rw [heq]
    refine ⟨hti, hde, hpa, hse, hfl, hus, hte, rfl, rfl, ?_, ?_⟩
    · intro info hp hi
      exact hd1 info hp hi
    · intro hbad
      exact hd2 hbad

/-- C9 witness: probe persists duration 7, then the thumbnail stage fails;
the failed record keeps duration 7 and the still-`pending` sensitivity. -/
theorem C9_failure_frame_witness :
    stageThrows1 demoVideo envThumbFails ∧
    (processVideo1 "v1" "u1" demoVideo envThumbFails mockAIAnalysisA).finalRecord.sensitivityStatus
      = "pending" ∧
    (processVideo1 "v1" "u1" demoVideo envThumbFails mockAIAnalysisA).finalRecord.duration
      = 7 ∧
    (processVideo1 "v1" "u1" demoVideo envThumbFails mockAIAnalysisA).finalRecord.status
      = "failed" := by
  have hthrow : stageThrows1 demoVideo envThumbFails := Or.inr (Or.inr (Or.inl rfl))
  obtain ⟨⟨-, -, -, hse, -, -, -, hst, -, hd1, -⟩, -⟩ :=
    C9_failure_frame "v1" "u1" demoVideo envThumbFails mockAIAnalysisA hthrow
  refine ⟨hthrow, ?_, ?_, hst⟩
  · rw [hse]
    rfl
  · exact hd1 { duration := 7, width := 640, height := 360, codec := "h264" } rfl rfl
